import Mathlib

/-!
# Verification of the Zoho OAuth token lifecycle and authenticated-request layer

Shallow embedding of the OAuth token management and authenticated-request
code that is duplicated across the repository:

* `MCP` — `MCPServers/zoho-crm-mcp-server/src/zoho_crm_mcp/server.py`
  (module-level globals `current_access_token` / `current_refresh_token`,
  the `.tokens.json` file, `load_tokens`, `save_tokens`,
  `refresh_access_token`, `generate_oauth_tokens`, `ensure_valid_token`,
  `get_auth_headers`, `make_authenticated_request`, `set_refresh_token`,
  `bulk_create_records`).
* `ZC` — `backend/app/integrations/zoho/client.py` (`ZohoClient`:
  `_ensure_valid_token`, `_refresh_access_token`, `_rate_limit_check`,
  `_make_request`).
* `Legacy` — `snapshots/.../legacy_zoho_mcp/zoho_mcp_server.py`
  (`make_zoho_request`).
* `Consolidated` — `snapshots/.../consolidated_zoho_mcp_server.py`
  (`load_tokens` expiry computation).
* `Interleave` — an explicit interleaving semantics for concurrent
  `_ensure_valid_token` / `get_valid_token` callers.
* `CB` — `backend/app/core/error_handler.py` (`circuit_breaker`).

HTTP traffic is modelled by passing the network's responses in as data:
an `AuthOutcome` is what one POST to the authorization endpoint produces
(a raised network error, or an `AuthResponse` with the parsed JSON body),
and a `ReqOutcome` is what one resource request produces.
-/

/-- A resource-API HTTP response: status code and body text. -/
structure HttpResp where
  status : Nat
  text : String
deriving DecidableEq, Repr

/-- Outcome of issuing one resource request: the client library raised
(connection error / timeout), or a response came back. -/
inductive ReqOutcome where
  | raise : ReqOutcome
  | resp : HttpResp → ReqOutcome
deriving DecidableEq, Repr

/-- Parsed JSON body of one authorization-endpoint response, together with
its status code and raw text.  `accessToken`, `refreshToken` and
`expiresIn` model `token_data.get(...)` — absent keys are `none`. -/
structure AuthResponse where
  status : Nat
  accessToken : Option String
  refreshToken : Option String
  expiresIn : Option Int
  text : String
deriving DecidableEq, Repr

/-- Outcome of one POST to the authorization endpoint. -/
inductive AuthOutcome where
  | netError : AuthOutcome
  | got : AuthResponse → AuthOutcome
deriving DecidableEq, Repr

/-- Python truthiness of an optional string: `None` and `""` are falsy. -/
def truthyOpt : Option String → Bool
  | none => false
  | some s => !(s == "")

/-- Python f-string rendering of an optional string: `None` prints as
the four characters `None`. -/
def pyShow : Option String → String
  | none => "None"
  | some s => s

/-- Python `x or d` on an optional integer: `None` and `0` are falsy and
give the default. -/
def pyOrInt : Option Int → Int → Int
  | none, d => d
  | some x, d => if x = 0 then d else x

/-- Python `dict.get(key, d)` on an optional integer. -/
def pyGetInt : Option Int → Int → Int
  | none, d => d
  | some x, _ => x

namespace MCP

/-- Contents of the `.tokens.json` file written by `save_tokens`:
`{"access_token": ..., "refresh_token": ..., "created_at": int(time.time()),
"expires_in": expires_in or 3600}`. -/
structure TokenFile where
  access : Option String
  refresh : Option String
  createdAt : Int
  expiresIn : Int
deriving DecidableEq, Repr

/-- Module state of `server.py`: the globals `current_access_token` and
`current_refresh_token`, and the token file (`none` = file absent). -/
structure MCPState where
  access : Option String
  refresh : Option String
  file : Option TokenFile
deriving DecidableEq, Repr

/-- Environment configuration read at module load: `ZOHO_CLIENT_ID`,
`ZOHO_CLIENT_SECRET` (may be unset), and `ZOHO_ACCESS_TOKEN` /
`ZOHO_REFRESH_TOKEN` with their `"Generate-from-OAuth"` defaults. -/
structure Env where
  clientId : Option String
  clientSecret : Option String
  envAccess : String
  envRefresh : String
deriving DecidableEq, Repr

/-- `load_tokens()`: if the token file exists, set both globals from it and
return `True`; otherwise fall back to the environment variables (only when
they differ from the `"Generate-from-OAuth"` sentinel) and return whether
`current_access_token is not None`. -/
def load_tokens (env : Env) (st : MCPState) : Bool × MCPState :=
  match st.file with
  | some f => (true, { st with access := f.access, refresh := f.refresh })
  | none =>
    let st1 := if env.envAccess = "Generate-from-OAuth" then st
      else { st with access := some env.envAccess }
    let st2 := if env.envRefresh = "Generate-from-OAuth" then st1
      else { st1 with refresh := some env.envRefresh }
    (st2.access.isSome, st2)

/-- `save_tokens(access_token, refresh_token, expires_in)`: update each
global only when the argument is truthy, then write the whole file with
`created_at = int(time.time())` and `expires_in or 3600`. -/
def save_tokens (a r : Option String) (e : Option Int) (now : Int)
    (st : MCPState) : MCPState :=
  let access := if truthyOpt a then a else st.access
  let refresh := if truthyOpt r then r else st.refresh
  { access := access, refresh := refresh,
    file := some { access := access, refresh := refresh,
                   createdAt := now, expiresIn := pyOrInt e 3600 } }

/-- Result dictionary of `refresh_access_token`: `{"success": True,
"token": current_access_token}` or `{"error": msg}`. -/
inductive RefRes where
  | ok : Option String → RefRes
  | err : String → RefRes
deriving DecidableEq, Repr

/-- `refresh_result.get("success")` truthiness. -/
def RefRes.isOk : RefRes → Bool
  | .ok _ => true
  | .err _ => false

/-- `refresh_access_token()`: error if no refresh token; POST the grant; on
HTTP 200 assign `current_access_token = token_data.get("access_token")` and
`save_tokens(access_token=..., expires_in=token_data.get("expires_in"))`;
otherwise report the failure. -/
def refresh_access_token (exch : AuthOutcome) (now : Int) (st : MCPState) :
    RefRes × MCPState :=
  if !truthyOpt st.refresh then
    (.err "No refresh token available. Need to complete OAuth setup first.", st)
  else
    match exch with
    | .netError => (.err "Token refresh error", st)
    | .got r =>
      if r.status = 200 then
        let st1 := { st with access := r.accessToken }
        let st2 := save_tokens r.accessToken none r.expiresIn now st1
        (.ok r.accessToken, st2)
      else
        (.err ("Token refresh failed: " ++ r.text), st)

/-- Result of `generate_oauth_tokens`. -/
inductive GenRes where
  | ok : Option String → GenRes
  | err : String → GenRes
deriving DecidableEq, Repr

/-- `oauth_result.get("success")` truthiness. -/
def GenRes.isOk : GenRes → Bool
  | .ok _ => true
  | .err _ => false

/-- `generate_oauth_tokens()`: error when client credentials are missing;
POST a client-credentials grant; on 200 `save_tokens` with the returned
tokens and `expires_in` defaulted to 3600; otherwise report the failure. -/
def generate_oauth_tokens (env : Env) (exch : AuthOutcome) (now : Int)
    (st : MCPState) : GenRes × MCPState :=
  if !truthyOpt env.clientId || !truthyOpt env.clientSecret then
    (.err "Missing client credentials", st)
  else
    match exch with
    | .netError => (.err "OAuth generation error", st)
    | .got r =>
      if r.status = 200 then
        let st1 := save_tokens r.accessToken r.refreshToken
          (some (pyGetInt r.expiresIn 3600)) now st
        (.ok r.accessToken, st1)
      else
        (.err ("OAuth token generation failed: " ++ r.text), st)

/-- `ensure_valid_token()`: load the file when no access token is cached;
if a refresh token is present but no access token, try a refresh and return
`True` on success; if there is still no access token, try
`generate_oauth_tokens` and return its success flag; else return `True`.
`rexch` is the refresh exchange's outcome, `gexch` the client-credentials
exchange's. -/
def ensure_valid_token (env : Env) (rexch gexch : AuthOutcome) (now : Int)
    (st : MCPState) : Bool × MCPState :=
  let st1 := if !truthyOpt st.access then (load_tokens env st).2 else st
  let step3 := fun (stX : MCPState) =>
    if !truthyOpt stX.access then
      let (ores, st3) := generate_oauth_tokens env gexch now stX
      (ores.isOk, st3)
    else (true, stX)
  if truthyOpt st1.refresh && !truthyOpt st1.access then
    let (res, st2) := refresh_access_token rexch now st1
    if res.isOk then (true, st2) else step3 st2
  else step3 st1

/-- `get_auth_headers()`: run `ensure_valid_token` when no access token is
cached (ignoring its return value), then format
`Authorization: Zoho-oauthtoken {current_access_token}` — a still-absent
token is rendered as the literal string `None`. -/
def get_auth_headers (env : Env) (rexch gexch : AuthOutcome) (now : Int)
    (st : MCPState) : String × MCPState :=
  let st1 := if !truthyOpt st.access then
    (ensure_valid_token env rexch gexch now st).2 else st
  ("Zoho-oauthtoken " ++ pyShow st1.access, st1)

/-- Trace of one `make_authenticated_request` call: the response handed
back to the caller, the Authorization header of each HTTP request actually
issued (in order), the number of `refresh_access_token` calls made from the
401 branch, and the final module state. -/
structure MATrace where
  response : HttpResp
  headers : List String
  refreshes : Nat
  state : MCPState
deriving DecidableEq, Repr

/-- `make_authenticated_request(method, url, ...)`: take headers from
`get_auth_headers`, issue the request (`resp1` is its outcome); on a 401,
call `refresh_access_token` once (`forced` is that exchange's outcome) and,
only if it reports success, rebuild headers and retry exactly once
(`resp2`); any other first response — and the second response, whatever its
status — is returned as-is. -/
def make_authenticated_request (env : Env) (rexch gexch forced : AuthOutcome)
    (now : Int) (resp1 resp2 : HttpResp) (st : MCPState) : MATrace :=
  let (h1, st1) := get_auth_headers env rexch gexch now st
  if resp1.status = 401 then
    let (rres, st2) := refresh_access_token forced now st1
    if rres.isOk then
      let (h2, st3) := get_auth_headers env rexch gexch now st2
      { response := resp2, headers := [h1, h2], refreshes := 1, state := st3 }
    else
      { response := resp1, headers := [h1], refreshes := 1, state := st2 }
  else
    { response := resp1, headers := [h1], refreshes := 0, state := st1 }

/-- Result dictionary of `set_refresh_token`. -/
inductive SRTRes where
  | success : String → SRTRes
  | failure : String → SRTRes
deriving DecidableEq, Repr

/-- `current_access_token[:20] + "..." if current_access_token else "None"`. -/
def preview20 : Option String → String
  | none => "None"
  | some s => if s = "" then "None" else s.take 20 ++ "..."

/-- `set_refresh_token(refresh_token)`: assign the global, persist via
`save_tokens(refresh_token=...)`, then eagerly call
`refresh_access_token()`; report success with a token preview, or an error
naming the refresh failure. -/
def set_refresh_token (rt : String) (exch : AuthOutcome) (now : Int)
    (st : MCPState) : SRTRes × MCPState :=
  let st1 := { st with refresh := some rt }
  let st2 := save_tokens none (some rt) none now st1
  match refresh_access_token exch now st2 with
  | (.ok _, st3) => (.success (preview20 st3.access), st3)
  | (.err m, st3) =>
    (.failure ("Refresh token saved but failed to generate access token: " ++ m), st3)

/-- Result of `bulk_create_records`. -/
inductive BulkRes where
  | ok : Nat → BulkRes
  | err : String → Option Nat → BulkRes
deriving DecidableEq, Repr

/-- `bulk_create_records(module_name, records_data)`: reject lists longer
than 100 before any HTTP activity; otherwise POST the batch through
`make_authenticated_request` and report success on 201.  The second
component is the list of Authorization headers of the requests issued
(empty when the size check rejects). -/
def bulk_create_records (env : Env) (rexch gexch forced : AuthOutcome)
    (now : Int) (resp1 resp2 : HttpResp) (records : List String)
    (st : MCPState) : BulkRes × List String × MCPState :=
  if records.length > 100 then
    (.err "Maximum 100 records allowed per bulk operation" none, [], st)
  else
    let tr := make_authenticated_request env rexch gexch forced now resp1 resp2 st
    if tr.response.status = 201 then
      (.ok records.length, tr.headers, tr.state)
    else
      (.err tr.response.text (some tr.response.status), tr.headers, tr.state)

end MCP

namespace ZC

/-- Instance state of `ZohoClient`: `access_token`, `token_expires_at`
(absolute time, `None` until the first refresh), the rate-limit timestamp
list, and the configured `max_requests_per_minute`. -/
structure ZCState where
  access : Option String
  expiresAt : Option Int
  timestamps : List Int
  maxPerMinute : Nat
deriving DecidableEq, Repr

/-- Errors raised out of `ZohoClient` methods. -/
inductive ZCErr where
  | netErr : ZCErr
  | keyError : ZCErr
  | refreshFailed : String → ZCErr
  | apiError : Nat → String → ZCErr
deriving DecidableEq, Repr

/-- `_refresh_access_token()`: POST the refresh grant; on 200 store
`token_data["access_token"]` (a missing key raises) and
`expires_at = utcnow() + (expires_in default 3600) - 60`; a non-200 or a
network error raises. -/
def zcRefresh (exch : AuthOutcome) (now : Int) (st : ZCState) :
    Except ZCErr ZCState :=
  match exch with
  | .netError => .error .netErr
  | .got r =>
    if r.status = 200 then
      match r.accessToken with
      | none => .error .keyError
      | some a =>
        .ok { st with access := some a,
                      expiresAt := some (now + pyGetInt r.expiresIn 3600 - 60) }
    else
      .error (.refreshFailed r.text)

/-- The expiry test of `_ensure_valid_token`: refresh when
`access_token is None or token_expires_at is None or
utcnow() >= token_expires_at`. -/
def zcNeedsRefresh (now : Int) (st : ZCState) : Bool :=
  st.access.isNone ||
    (match st.expiresAt with
     | none => true
     | some t => decide (t ≤ now))

/-- `_ensure_valid_token()`: refresh exactly when `zcNeedsRefresh`. -/
def zcEnsureValidToken (exch : AuthOutcome) (now : Int) (st : ZCState) :
    Except ZCErr ZCState :=
  if zcNeedsRefresh now st then zcRefresh exch now st else .ok st

/-- `_rate_limit_check()`: drop timestamps older than one minute; if the
remaining count reaches `max_requests_per_minute`, sleep
`60 - (now - timestamps[0]).total_seconds()` (only when positive); then
append `now` and proceed.  Returns the slept duration and the new state —
there is no rejecting branch. -/
def zcRateLimitCheck (now : Int) (st : ZCState) : Int × ZCState :=
  let pruned := st.timestamps.filter (fun t => now - t < 60)
  let sleep :=
    if pruned.length ≥ st.maxPerMinute then
      match pruned with
      | [] => 0
      | t0 :: _ => max (60 - (now - t0)) 0
    else 0
  (sleep, { st with timestamps := pruned ++ [now] })

/-- What `_make_request` hands back: the parsed body on success, a raised
exception, or Python's implicit `None` when the `for attempt in range(3)`
loop is exhausted by `continue` without returning. -/
inductive ZCRes where
  | retBody : String → ZCRes
  | raised : ZCErr → ZCRes
  | retNone : ZCRes
deriving DecidableEq, Repr

/-- Trace of one `_make_request` call: its result, how many resource
requests were actually issued, how many refresh exchanges were sent, and
the final client state. -/
structure ZCTrace where
  result : ZCRes
  requests : Nat
  refreshes : Nat
  state : ZCState
deriving DecidableEq, Repr

/-- The `for attempt in range(3)` body of `_make_request`, indexed by the
remaining attempt count (`remaining = 1` is the last attempt, on which the
`except` handler re-raises instead of retrying).  `resps i` is the outcome
of the `i`-th request issued, `rexch j` of the `j`-th refresh exchange.
A 401 refreshes and `continue`s (even on the last attempt — the loop then
falls through and the function returns `None`); a refresh exception and a
raised `API error {status}` for statuses ≥ 400 are both caught by the
`except Exception` handler, which retries with backoff or, on the last
attempt, re-raises; a status < 400 returns the body text. -/
def zcGo (resps : Nat → ReqOutcome) (rexch : Nat → AuthOutcome) (now : Int) :
    Nat → Nat → Nat → ZCState → ZCTrace
  | 0, reqC, refC, st => { result := .retNone, requests := reqC,
                           refreshes := refC, state := st }
  | n + 1, reqC, refC, st =>
    match resps reqC with
    | .raise =>
      if n = 0 then
        { result := .raised .netErr, requests := reqC + 1,
          refreshes := refC, state := st }
      else zcGo resps rexch now n (reqC + 1) refC st
    | .resp r =>
      if r.status = 401 then
        match zcRefresh (rexch refC) now st with
        | .ok st1 => zcGo resps rexch now n (reqC + 1) (refC + 1) st1
        | .error e =>
          if n = 0 then
            { result := .raised e, requests := reqC + 1,
              refreshes := refC + 1, state := st }
          else zcGo resps rexch now n (reqC + 1) (refC + 1) st
      else if 400 ≤ r.status then
        if n = 0 then
          { result := .raised (.apiError r.status r.text), requests := reqC + 1,
            refreshes := refC, state := st }
        else zcGo resps rexch now n (reqC + 1) refC st
      else
        { result := .retBody r.text, requests := reqC + 1,
          refreshes := refC, state := st }

/-- `_make_request(method, url, ...)`: `_ensure_valid_token` (an exception
here propagates to the caller before any resource request), then
`_rate_limit_check`, then the three-attempt loop.  `ensureExch` is the
exchange outcome seen by the initial ensure-refresh. -/
def zcMakeRequest (ensureExch : AuthOutcome) (resps : Nat → ReqOutcome)
    (rexch : Nat → AuthOutcome) (now : Int) (st : ZCState) : ZCTrace :=
  match zcEnsureValidToken ensureExch now st with
  | .error e => { result := .raised e, requests := 0, refreshes := 0, state := st }
  | .ok st1 =>
    let (_, st2) := zcRateLimitCheck now st1
    zcGo resps rexch now 3 0 0 st2

end ZC

namespace Legacy

/-- Errors raised by the legacy `make_zoho_request` (as `HTTPException`s
or a `ValueError`). -/
inductive LegacyErr where
  | netErr : LegacyErr
  | badMethod : String → LegacyErr
  | apiErr : Nat → String → LegacyErr
deriving DecidableEq, Repr

/-- Python's `str.upper()`, character by character. -/
def pyUpper (s : String) : String :=
  String.mk (s.data.map Char.toUpper)

/-- `make_zoho_request(method, endpoint, data)` of the legacy MCP server:
dispatch on the upper-cased method (anything but GET/POST/PUT raises
`ValueError`); a network error raises; any status outside `[200, 201]`
raises an `HTTPException` carrying the status and the first 200 characters
of the body — immediately, with no retry; otherwise return the body. -/
def make_zoho_request (method : String) (out : ReqOutcome) :
    Except LegacyErr String :=
  let m := pyUpper method
  if m = "GET" || m = "POST" || m = "PUT" then
    match out with
    | .raise => .error .netErr
    | .resp r =>
      if r.status = 200 || r.status = 201 then .ok r.text
      else .error (.apiErr r.status (r.text.take 200))
  else .error (.badMethod method)

end Legacy

namespace Consolidated

/-- The expiry the consolidated server's `load_tokens` computes from the
token file: `datetime.fromtimestamp(created_at + expires_in - 300)`. -/
def loadExpiry (f : MCP.TokenFile) : Int :=
  f.createdAt + f.expiresIn - 300

end Consolidated

namespace Interleave

/-- Shared state for two concurrent `_ensure_valid_token` /
`get_valid_token` callers, with each task's progress through the body:
`pc = 0` — about to evaluate the expiry check; `pc = 1` — the check saw an
expired/absent token and the task is suspended in the `await` of the token
POST; `pc = 2` — returned.  `exchanges` counts refresh exchanges sent to
the authorization endpoint.  There is no lock in the source, so between the
check and the store any other task may run. -/
structure Sys where
  access : Option String
  expiresAt : Option Int
  exchanges : Nat
  pc0 : Nat
  pc1 : Nat
deriving DecidableEq, Repr

/-- The expiry check a task evaluates at `pc = 0` (the condition of
`_ensure_valid_token` / `get_valid_token`). -/
def expired (now : Int) (s : Sys) : Bool :=
  s.access.isNone ||
    (match s.expiresAt with
     | none => true
     | some t => decide (t ≤ now))

/-- Run one step of task `0` (when `i = false`) or task `1` (when
`i = true`): at `pc = 0` evaluate the check and either proceed to the
exchange or return; at `pc = 1` complete the exchange (send one POST,
store the fresh token) and return; at `pc = 2` do nothing. -/
def step (now newExp : Int) (newTok : String) (i : Bool) (s : Sys) : Sys :=
  match i with
  | false =>
    if s.pc0 = 0 then
      if expired now s then { s with pc0 := 1 } else { s with pc0 := 2 }
    else if s.pc0 = 1 then
      { s with access := some newTok, expiresAt := some newExp,
               exchanges := s.exchanges + 1, pc0 := 2 }
    else s
  | true =>
    if s.pc1 = 0 then
      if expired now s then { s with pc1 := 1 } else { s with pc1 := 2 }
    else if s.pc1 = 1 then
      { s with access := some newTok, expiresAt := some newExp,
               exchanges := s.exchanges + 1, pc1 := 2 }
    else s

/-- Run a schedule: each entry names the task stepped next. -/
def run (now newExp : Int) (newTok : String) (sched : List Bool) (s : Sys) : Sys :=
  sched.foldl (fun acc i => step now newExp newTok i acc) s

end Interleave

namespace CB

/-- The closure state of one `circuit_breaker` decorator instance:
`{'failures': 0, 'last_failure': None, 'open': False}`. -/
structure CBState where
  failures : Nat
  lastFailure : Option Int
  openFlag : Bool
deriving DecidableEq, Repr

/-- What one wrapped call produces. -/
inductive CBOutcome where
  | ok : CBOutcome
  | raisedFuncError : CBOutcome
  | circuitOpen : CBOutcome
deriving DecidableEq, Repr

/-- `(datetime.now() - last_failure).seconds`: the seconds component of a
non-negative timedelta, i.e. the elapsed time modulo one day. -/
def elapsedSeconds (now last : Int) : Int :=
  (now - last) % 86400

/-- One call through the `circuit_breaker` wrapper.  When the circuit is
open: fail fast if the recovery timeout has not elapsed, else close the
circuit and zero the failure count before attempting the call.  Then run
the wrapped function (`succ` says whether it succeeds): success zeroes the
failure count; failure increments it, stamps `last_failure = now`, and
re-opens the circuit only once the count reaches the threshold. -/
def cbCall (threshold : Nat) (timeout : Int) (now : Int) (succ : Bool)
    (st : CBState) : CBOutcome × CBState :=
  let go := fun (s : CBState) =>
    if succ then (CBOutcome.ok, { s with failures := 0 })
    else
      let f := s.failures + 1
      (CBOutcome.raisedFuncError,
       { s with failures := f, lastFailure := some now,
                openFlag := if f ≥ threshold then true else s.openFlag })
  if st.openFlag then
    match st.lastFailure with
    | none => go st  -- unreachable: the source only opens the circuit after stamping last_failure
    | some last =>
      if elapsedSeconds now last < timeout then (CBOutcome.circuitOpen, st)
      else go { st with openFlag := false, failures := 0 }
  else go st

end CB

/-! ## Concrete fixtures used by witnesses and counterexamples -/

/-- A plain 200 response. -/
def okResp : HttpResp := { status := 200, text := "ok" }

/-- A 401 response. -/
def resp401 : HttpResp := { status := 401, text := "unauthorized" }

/-- A 400 response. -/
def resp400 : HttpResp := { status := 400, text := "bad" }

/-- A successful token-exchange response carrying a fresh access token. -/
def authOk : AuthResponse :=
  { status := 200, accessToken := some "AT2", refreshToken := none,
    expiresIn := some 3600, text := "" }

/-- Resource API that answers 401 to every request. -/
def all401 : Nat → ReqOutcome := fun _ => .resp resp401

/-- Resource API that answers 400 to every request. -/
def all400 : Nat → ReqOutcome := fun _ => .resp resp400

/-- Authorization endpoint that succeeds on every refresh exchange. -/
def refreshOkSeq : Nat → AuthOutcome := fun _ => .got authOk

/-- MCP environment with no credentials configured and both token
environment variables left at their `"Generate-from-OAuth"` defaults. -/
def MCP.noEnv : MCP.Env :=
  { clientId := none, clientSecret := none,
    envAccess := "Generate-from-OAuth", envRefresh := "Generate-from-OAuth" }

/-- MCP module state at process start: no globals, no token file. -/
def MCP.emptyState : MCP.MCPState :=
  { access := none, refresh := none, file := none }

/-- Backend client state holding a token valid until `t = 1000`. -/
def ZC.zcReady : ZC.ZCState :=
  { access := some "AT1", expiresAt := some 1000, timestamps := [],
    maxPerMinute := 100 }

/-- Backend client state before any token was acquired. -/
def ZC.zcEmpty : ZC.ZCState :=
  { access := none, expiresAt := none, timestamps := [], maxPerMinute := 100 }

/-- Two concurrent callers, both at the expiry check, token absent. -/
def Interleave.s0 : Interleave.Sys :=
  { access := none, expiresAt := none, exchanges := 0, pc0 := 0, pc1 := 0 }

/-- Circuit-breaker state produced by five consecutive failing calls at
times 0..4 through `circuit_breaker(failure_threshold=5,
recovery_timeout=60)`, starting from the initial closure state. -/
def CB.fail5 : CB.CBState :=
  List.foldl (fun s t => (CB.cbCall 5 60 t false s).2)
    { failures := 0, lastFailure := none, openFlag := false }
    [0, 1, 2, 3, 4]

/-- Refresh budget of one caller: it can still send an exchange while its
program counter is at the check or inside the exchange. -/
def Interleave.budget (s : Interleave.Sys) : Nat :=
  (if s.pc0 ≤ 1 then 1 else 0) + (if s.pc1 ≤ 1 then 1 else 0)

/-- One scheduler step never increases `exchanges + budget`. -/
theorem Interleave.step_bound (now newExp : Int) (newTok : String) (i : Bool)
    (s : Interleave.Sys) :
    (Interleave.step now newExp newTok i s).exchanges +
        Interleave.budget (Interleave.step now newExp newTok i s) ≤
      s.exchanges + Interleave.budget s := by
  cases i <;>
    (simp only [Interleave.step]
     split_ifs <;> simp [Interleave.budget] <;> split_ifs <;> omega)

/-- Any finite schedule never increases `exchanges + budget`. -/
theorem Interleave.run_bound (now newExp : Int) (newTok : String)
    (sched : List Bool) (s : Interleave.Sys) :
    (Interleave.run now newExp newTok sched s).exchanges +
        Interleave.budget (Interleave.run now newExp newTok sched s) ≤
      s.exchanges + Interleave.budget s := by
  induction sched generalizing s with
  | nil => simp [Interleave.run]
  | cons i rest ih =>
    have hstep := Interleave.step_bound now newExp newTok i s
    have hrest := ih (Interleave.step now newExp newTok i s)
    simp only [Interleave.run, List.foldl_cons] at hrest ⊢
    omega

/-! ## Claims -/

/-- C5: a token-exchange response whose `expires_in` is zero or negative is
never served as valid by `ZohoClient`: the stored expiry lies strictly in
the past, so at every later instant `_ensure_valid_token` sees the token as
expired and forces a refresh before any token is handed out. -/
theorem c5_zero_expiry_never_valid
    (st st1 : ZC.ZCState) (r : AuthResponse) (e now t2 : Int)
    (exch2 : AuthOutcome)
    (hs : r.status = 200) (he : r.expiresIn = some e) (he0 : e ≤ 0)
    (ht : now ≤ t2)
    (hok : ZC.zcRefresh (.got r) now st = .ok st1) :
    ZC.zcNeedsRefresh t2 st1 = true ∧
      ZC.zcEnsureValidToken exch2 t2 st1 = ZC.zcRefresh exch2 t2 st1 := by
  have hst1 : st1.expiresAt = some (now + e - 60) := by
    simp only [ZC.zcRefresh, hs, if_pos] at hok
    cases hacc : r.accessToken with
    | none => rw [hacc] at hok; cases hok
    | some a =>
      rw [hacc] at hok
      simp only [Except.ok.injEq] at hok
      rw [← hok, he]
      simp [pyGetInt]
  have hneed : ZC.zcNeedsRefresh t2 st1 = true := by
    simp only [ZC.zcNeedsRefresh, hst1, Bool.or_eq_true, decide_eq_true_eq]
    right
    omega
  exact ⟨hneed, by simp [ZC.zcEnsureValidToken, hneed]⟩

/-- C5 witness: a concrete exchange with `expires_in = 0` at time 10 is
already expired at time 10. -/
theorem c5_witness :
    ZC.zcNeedsRefresh 10
        { access := some "A", expiresAt := some (10 + 0 - 60),
          timestamps := [], maxPerMinute := 100 } = true ∧
      ZC.zcEnsureValidToken .netError 10
          { access := some "A", expiresAt := some (10 + 0 - 60),
            timestamps := [], maxPerMinute := 100 } =
        ZC.zcRefresh .netError 10
          { access := some "A", expiresAt := some (10 + 0 - 60),
            timestamps := [], maxPerMinute := 100 } :=
  c5_zero_expiry_never_valid ZC.zcEmpty
    { access := some "A", expiresAt := some (10 + 0 - 60),
      timestamps := [], maxPerMinute := 100 }
    { status := 200, accessToken := some "A", refreshToken := none,
      expiresIn := some 0, text := "" }
    0 10 10 .netError rfl rfl (by decide) (by decide) rfl

/-- C8: when the pruned rate window already holds at least
`max_requests_per_minute` entries, the next call sleeps exactly
`60 - (now - oldest)` seconds — the time remaining until the oldest counted
request leaves the trailing 60-second window — and then proceeds (its
timestamp is appended); there is no rejecting branch. -/
theorem c8_rate_limit_delay
    (now t0 : Int) (rest : List Int) (st : ZC.ZCState)
    (hfilter : st.timestamps.filter (fun t => now - t < 60) = t0 :: rest)
    (hlen : (t0 :: rest).length ≥ st.maxPerMinute) :
    ZC.zcRateLimitCheck now st =
        (60 - (now - t0), { st with timestamps := (t0 :: rest) ++ [now] }) ∧
      0 < 60 - (now - t0) ∧ 60 - (now - t0) = t0 + 60 - now := by
  have hmem : t0 ∈ st.timestamps.filter (fun t => now - t < 60) := by
    rw [hfilter]; exact List.mem_cons_self t0 rest
  have hwin : now - t0 < 60 := by
    have := List.of_mem_filter hmem
    simpa using this
  refine ⟨?_, by omega, by omega⟩
  simp only [ZC.zcRateLimitCheck, hfilter]
  rw [if_pos hlen]
  have : max (60 - (now - t0)) 0 = 60 - (now - t0) := by omega
  rw [this]

/-- C8 witness: with a limit of 2 and counted requests at times 0 and 30,
a third call at time 50 sleeps 10 seconds — exactly until the request from
time 0 exits the window — and proceeds. -/
theorem c8_witness :
    ZC.zcRateLimitCheck 50
        { access := none, expiresAt := none, timestamps := [0, 30],
          maxPerMinute := 2 } =
        (60 - (50 - 0),
          { access := none, expiresAt := none, timestamps := [0, 30] ++ [50],
            maxPerMinute := 2 }) ∧
      (0 : Int) < 60 - (50 - 0) ∧ (60 - (50 - 0) : Int) = 0 + 60 - 50 := by
  have h := c8_rate_limit_delay 50 0 [30]
    { access := none, expiresAt := none, timestamps := [0, 30],
      maxPerMinute := 2 }
    (by decide) (by decide)
  exact h

/-- C10: `bulk_create_records` refuses a list of more than 100 records with
a structured error before issuing any HTTP request, and for 100 or fewer
records it issues the bulk-create request (at least one HTTP request goes
out). -/
theorem c10_bulk_limit
    (env : MCP.Env) (rexch gexch forced : AuthOutcome) (now : Int)
    (resp1 resp2 : HttpResp) (records : List String) (st : MCP.MCPState) :
    (records.length > 100 →
      MCP.bulk_create_records env rexch gexch forced now resp1 resp2 records st =
        (.err "Maximum 100 records allowed per bulk operation" none, [], st)) ∧
    (records.length ≤ 100 →
      (MCP.bulk_create_records env rexch gexch forced now resp1 resp2
          records st).2.1 ≠ []) := by
  constructor
  · intro hlong
    simp [MCP.bulk_create_records, hlong]
  · intro hshort
    have hnot : ¬ records.length > 100 := by omega
    simp only [MCP.bulk_create_records, if_neg hnot]
    have hne : (MCP.make_authenticated_request env rexch gexch forced now
        resp1 resp2 st).headers ≠ [] := by
      simp only [MCP.make_authenticated_request]
      split
      · split <;> simp
      · simp
    split <;> simpa using hne

/-- C1 counterexample: the claim says every Executor performs exactly one
forced refresh and one retry on a 401, a second 401 being terminal.  In
`ZohoClient._make_request`, three consecutive 401 responses (with the
refresh exchange succeeding each time) produce three refresh exchanges and
three issued requests, and the function then falls out of its
`for attempt in range(3)` loop and returns Python's implicit `None` —
neither a single refresh nor a terminal authentication failure. -/
theorem c1_counterexample :
    (ZC.zcMakeRequest .netError all401 refreshOkSeq 0 ZC.zcReady).refreshes = 3 ∧
      (ZC.zcMakeRequest .netError all401 refreshOkSeq 0 ZC.zcReady).requests = 3 ∧
      (ZC.zcMakeRequest .netError all401 refreshOkSeq 0 ZC.zcReady).result =
        ZC.ZCRes.retNone :=
  ⟨rfl, rfl, rfl⟩

/-- C1 amended: the one-forced-refresh/one-retry contract holds of the MCP
server's `make_authenticated_request` (with a cached access and refresh
token): a first 401 triggers exactly one refresh exchange and, the refresh
having succeeded, exactly one retry, whose response — 401 included — is
returned to the caller with no further refresh or retry.  The backend
`ZohoClient._make_request` instead refreshes and retries on each 401 of its
three attempts and returns `None` after a third consecutive 401
(see the counterexample). -/
theorem c1_amended_mcp_single_refresh
    (env : MCP.Env) (rexch gexch : AuthOutcome) (r : AuthResponse)
    (a : String) (now : Int) (resp1 resp2 : HttpResp) (st : MCP.MCPState)
    (h401 : resp1.status = 401) (hr : r.status = 200)
    (ha : r.accessToken = some a) (hne : a ≠ "")
    (hacc : truthyOpt st.access = true) (hrt : truthyOpt st.refresh = true) :
    (MCP.make_authenticated_request env rexch gexch (.got r) now resp1 resp2
        st).refreshes = 1 ∧
      (MCP.make_authenticated_request env rexch gexch (.got r) now resp1
          resp2 st).headers.length = 2 ∧
      (MCP.make_authenticated_request env rexch gexch (.got r) now resp1
          resp2 st).response = resp2 := by
  have hga : MCP.get_auth_headers env rexch gexch now st =
      ("Zoho-oauthtoken " ++ pyShow st.access, st) := by
    simp [MCP.get_auth_headers, hacc]
  have hatruthy : truthyOpt (some a) = true := by
    simp [truthyOpt, hne]
  have hrefresh : MCP.refresh_access_token (.got r) now st =
      (.ok (some a),
        MCP.save_tokens r.accessToken none r.expiresIn now
          { st with access := r.accessToken }) := by
    simp [MCP.refresh_access_token, hrt, hr, ha]
  have hsaveacc : (MCP.save_tokens r.accessToken none r.expiresIn now
      { st with access := r.accessToken }).access = some a := by
    simp [MCP.save_tokens, ha, hatruthy]
  have hga2 : ∀ st2 : MCP.MCPState, st2.access = some a →
      MCP.get_auth_headers env rexch gexch now st2 =
        ("Zoho-oauthtoken " ++ a, st2) := by
    intro st2 h2
    simp [MCP.get_auth_headers, h2, hatruthy, pyShow]
  simp only [MCP.make_authenticated_request, hga, h401, if_pos, hrefresh,
    MCP.RefRes.isOk, if_true, hga2 _ hsaveacc]
  exact ⟨trivial, rfl, trivial⟩

/-- C1 amended witness: cached tokens, first response 401, refresh
succeeds, second response again 401 — one refresh, two requests, the
second 401 returned as-is. -/
theorem c1_amended_witness :
    (MCP.make_authenticated_request MCP.noEnv .netError .netError
        (.got authOk) 0 resp401 resp401
        { access := some "AT1", refresh := some "RT", file := none }).refreshes = 1 ∧
      (MCP.make_authenticated_request MCP.noEnv .netError .netError
        (.got authOk) 0 resp401 resp401
        { access := some "AT1", refresh := some "RT", file := none }).headers.length = 2 ∧
      (MCP.make_authenticated_request MCP.noEnv .netError .netError
        (.got authOk) 0 resp401 resp401
        { access := some "AT1", refresh := some "RT", file := none }).response = resp401 :=
  c1_amended_mcp_single_refresh MCP.noEnv .netError .netError authOk "AT2" 0
    resp401 resp401 { access := some "AT1", refresh := some "RT", file := none }
    rfl rfl rfl (by decide) (by decide) (by decide)

/-- C2 counterexample: the claim says a failed token acquisition is always
surfaced and no resource request is ever issued with a null token.  In the
MCP server, starting with no tokens anywhere and every exchange failing,
`make_authenticated_request` still issues the resource request — with the
header `Authorization: Zoho-oauthtoken None` (the Python `None` rendered
into the f-string) — and hands the response back with no failure signal. -/
theorem c2_counterexample :
    (MCP.make_authenticated_request MCP.noEnv .netError .netError .netError
        0 okResp okResp MCP.emptyState).headers =
        ["Zoho-oauthtoken None"] ∧
      (MCP.make_authenticated_request MCP.noEnv .netError .netError .netError
        0 okResp okResp MCP.emptyState).response = okResp ∧
      (MCP.make_authenticated_request MCP.noEnv .netError .netError .netError
        0 okResp okResp MCP.emptyState).state.access = none := by
  refine ⟨?_, rfl, rfl⟩
  decide

/-- C2 amended: the backend `ZohoClient` does satisfy the claim — a failed
token acquisition in `_ensure_valid_token` raises out of `_make_request`
before any resource request is issued, and a successful acquisition always
leaves a present (non-`None`) access token; the MCP server does not (see
the counterexample). -/
theorem c2_amended_backend_explicit_failure
    (exch : AuthOutcome) (now : Int) (st : ZC.ZCState)
    (resps : Nat → ReqOutcome) (rexch : Nat → AuthOutcome) :
    (∀ e, ZC.zcEnsureValidToken exch now st = .error e →
      ZC.zcMakeRequest exch resps rexch now st =
        { result := .raised e, requests := 0, refreshes := 0, state := st }) ∧
      (∀ st1, ZC.zcEnsureValidToken exch now st = .ok st1 →
        st1.access ≠ none) := by
  constructor
  · intro e he
    simp [ZC.zcMakeRequest, he]
  · intro st1 hok
    by_cases hn : ZC.zcNeedsRefresh now st
    · rw [ZC.zcEnsureValidToken, if_pos hn] at hok
      cases exch with
      | netError => cases hok
      | got r =>
        by_cases hs : r.status = 200
        · rw [ZC.zcRefresh] at hok
          simp only [hs, if_pos] at hok
          cases hacc : r.accessToken with
          | none => rw [hacc] at hok; cases hok
          | some a =>
            rw [hacc] at hok
            simp only [Except.ok.injEq] at hok
            rw [← hok]
            simp
        · rw [ZC.zcRefresh] at hok
          simp only [hs, if_neg, if_false] at hok
          cases hok
    · rw [ZC.zcEnsureValidToken, if_neg hn] at hok
      simp only [Except.ok.injEq] at hok
      rw [← hok]
      simp only [ZC.zcNeedsRefresh, Bool.or_eq_true] at hn
      intro hcontra
      exact hn (Or.inl (by simp [hcontra]))

/-- C2 amended witness: with no cached token and the refresh exchange
failing, `_make_request` raises the network error with zero resource
requests issued. -/
theorem c2_amended_witness :
    ZC.zcMakeRequest .netError all400 refreshOkSeq 0 ZC.zcEmpty =
      { result := .raised .netErr, requests := 0, refreshes := 0,
        state := ZC.zcEmpty } :=
  (c2_amended_backend_explicit_failure .netError 0 ZC.zcEmpty all400
    refreshOkSeq).1 .netErr rfl

/-- C3 counterexample: the claim says concurrent `get_valid_token` /
`_ensure_valid_token` callers observing an expired token send at most one
refresh exchange.  Neither implementation takes a lock, so in the
interleaving where both callers evaluate the expiry check before either
completes its exchange, two exchanges are sent to the authorization
endpoint. -/
theorem c3_counterexample :
    (Interleave.run 100 3540 "T" [false, true, false, true]
        Interleave.s0).exchanges = 2 :=
  rfl

/-- C3 amended: with two concurrent callers there is no synchronization,
so each caller may send its own refresh exchange — at most one exchange per
caller, hence at most two in total (and two are reachable, see the
counterexample), rather than at most one overall. -/
theorem c3_amended_one_exchange_per_caller
    (now newExp : Int) (newTok : String) (sched : List Bool)
    (s : Interleave.Sys) (h0 : s.pc0 = 0) (h1 : s.pc1 = 0)
    (hx : s.exchanges = 0) :
    (Interleave.run now newExp newTok sched s).exchanges ≤ 2 := by
  have hb := Interleave.run_bound now newExp newTok sched s
  have hbs : Interleave.budget s = 2 := by simp [Interleave.budget, h0, h1]
  omega

/-- C3 amended witness: the double-refresh interleaving stays within the
two-exchange bound. -/
theorem c3_amended_witness :
    (Interleave.run 100 3540 "T" [false, true, false, true]
        Interleave.s0).exchanges ≤ 2 :=
  c3_amended_one_exchange_per_caller 100 3540 "T" [false, true, false, true]
    Interleave.s0 rfl rfl rfl

/-- C4 counterexample: the claim says a non-401 4xx is returned immediately
and never retried.  In `ZohoClient._make_request` the raised
`API error 400` is caught by the method's own `except Exception` handler
and the request is reissued: a constant-400 API sees three requests before
the final attempt's error is surfaced. -/
theorem c4_counterexample :
    (ZC.zcMakeRequest .netError all400 refreshOkSeq 0 ZC.zcReady).requests = 3 ∧
      (ZC.zcMakeRequest .netError all400 refreshOkSeq 0 ZC.zcReady).result =
        ZC.ZCRes.raised (.apiError 400 "bad") :=
  ⟨rfl, rfl⟩

/-- C4 amended: a non-401 4xx is never silently swallowed, and in the
legacy server it is surfaced immediately — any status outside `[200, 201]`
raises at once, carrying the status code and (the first 200 characters of)
the body, after exactly one request.  In the backend `ZohoClient` the same
response is instead retried up to the three-attempt maximum, the final
attempt's failure being surfaced with status and body
(see the counterexample for the retry counts). -/
theorem c4_amended_4xx_surfaced
    (r : HttpResp) (rexch : Nat → AuthOutcome) (now : Int) (st : ZC.ZCState)
    (h400 : 400 ≤ r.status) (h401 : r.status ≠ 401) :
    Legacy.make_zoho_request "GET" (.resp r) =
        .error (.apiErr r.status (r.text.take 200)) ∧
      (ZC.zcGo (fun _ => .resp r) rexch now 3 0 0 st).result =
        ZC.ZCRes.raised (.apiError r.status r.text) ∧
      (ZC.zcGo (fun _ => .resp r) rexch now 3 0 0 st).requests = 3 := by
  have hnot200 : r.status ≠ 200 := by omega
  have hnot201 : r.status ≠ 201 := by omega
  have hup : Legacy.pyUpper "GET" = "GET" := by decide
  refine ⟨?_, ?_, ?_⟩
  · simp [Legacy.make_zoho_request, hup, hnot200, hnot201]
  · simp [ZC.zcGo, h401, h400]
  · simp [ZC.zcGo, h401, h400]

/-- C4 amended witness: a 404 response is surfaced by the legacy server at
once with status and truncated body, and by the backend client after its
three attempts. -/
theorem c4_amended_witness :
    Legacy.make_zoho_request "GET" (.resp { status := 404, text := "missing" }) =
        .error (.apiErr 404 (String.take "missing" 200)) ∧
      (ZC.zcGo (fun _ => .resp { status := 404, text := "missing" })
          refreshOkSeq 0 3 0 0 ZC.zcReady).result =
        ZC.ZCRes.raised (.apiError 404 "missing") ∧
      (ZC.zcGo (fun _ => .resp { status := 404, text := "missing" })
          refreshOkSeq 0 3 0 0 ZC.zcReady).requests = 3 :=
  c4_amended_4xx_surfaced { status := 404, text := "missing" } refreshOkSeq 0
    ZC.zcReady (by decide) (by decide)

/-- C6: `set_refresh_token` leaves exactly two reachable outcomes, provided
the authorization endpoint honours its interface contract of carrying an
`access_token` in every 200 response: either the eager refresh succeeded
and the new refresh token plus the freshly minted access token are both in
memory and persisted in the token file, or the exchange failure is reported
and the previous access token (in memory and in the file) remains
authoritative, with the new refresh token saved as the operator requested. -/
theorem c6_set_refresh_token_two_outcomes
    (st : MCP.MCPState) (rt : String) (exch : AuthOutcome) (now : Int)
    (hresp : ∀ r, exch = .got r → r.status = 200 → r.accessToken ≠ none) :
    (∃ a s, (MCP.set_refresh_token rt exch now st).1 = .success s ∧
      (∃ r, exch = .got r ∧ r.accessToken = some a) ∧
      (MCP.set_refresh_token rt exch now st).2.access = some a ∧
      (MCP.set_refresh_token rt exch now st).2.refresh = some rt ∧
      (∃ f, (MCP.set_refresh_token rt exch now st).2.file = some f ∧
        f.access = some a ∧ f.refresh = some rt)) ∨
    (∃ m, (MCP.set_refresh_token rt exch now st).1 = .failure m ∧
      (MCP.set_refresh_token rt exch now st).2.access = st.access ∧
      (MCP.set_refresh_token rt exch now st).2.refresh = some rt ∧
      (∃ f, (MCP.set_refresh_token rt exch now st).2.file = some f ∧
        f.access = st.access ∧ f.refresh = some rt)) := by
  have hsave2 : MCP.save_tokens none (some rt) none now
      { st with refresh := some rt } =
      { access := st.access, refresh := some rt,
        file := some { access := st.access, refresh := some rt,
                       createdAt := now, expiresIn := 3600 } } := by
    simp [MCP.save_tokens, truthyOpt, pyOrInt]
  by_cases hrt : rt = ""
  · have hr0 : MCP.refresh_access_token exch now
        { access := st.access, refresh := some rt,
          file := some { access := st.access, refresh := some rt,
                         createdAt := now, expiresIn := 3600 } } =
        (.err "No refresh token available. Need to complete OAuth setup first.",
          { access := st.access, refresh := some rt,
            file := some { access := st.access, refresh := some rt,
                           createdAt := now, expiresIn := 3600 } }) := by
      simp [MCP.refresh_access_token, truthyOpt, hrt]
    have hout : MCP.set_refresh_token rt exch now st =
        (.failure ("Refresh token saved but failed to generate access token: "
            ++ "No refresh token available. Need to complete OAuth setup first."),
          { access := st.access, refresh := some rt,
            file := some { access := st.access, refresh := some rt,
                           createdAt := now, expiresIn := 3600 } }) := by
      simp only [MCP.set_refresh_token]
      rw [hsave2, hr0]
    refine Or.inr ⟨"Refresh token saved but failed to generate access token: "
        ++ "No refresh token available. Need to complete OAuth setup first.",
      by rw [hout], by rw [hout], by rw [hout],
      ⟨{ access := st.access, refresh := some rt, createdAt := now,
         expiresIn := 3600 }, by rw [hout], rfl, rfl⟩⟩
  · have htr : truthyOpt (some rt) = true := by simp [truthyOpt, hrt]
    cases exch with
    | netError =>
      have hrN : MCP.refresh_access_token .netError now
          { access := st.access, refresh := some rt,
            file := some { access := st.access, refresh := some rt,
                           createdAt := now, expiresIn := 3600 } } =
          (.err "Token refresh error",
            { access := st.access, refresh := some rt,
              file := some { access := st.access, refresh := some rt,
                             createdAt := now, expiresIn := 3600 } }) := by
        simp [MCP.refresh_access_token, htr]
      have hout : MCP.set_refresh_token rt .netError now st =
          (.failure ("Refresh token saved but failed to generate access token: "
              ++ "Token refresh error"),
            { access := st.access, refresh := some rt,
              file := some { access := st.access, refresh := some rt,
                             createdAt := now, expiresIn := 3600 } }) := by
        simp only [MCP.set_refresh_token]
        rw [hsave2, hrN]
      refine Or.inr ⟨"Refresh token saved but failed to generate access token: "
          ++ "Token refresh error",
        by rw [hout], by rw [hout], by rw [hout],
        ⟨{ access := st.access, refresh := some rt, createdAt := now,
           expiresIn := 3600 }, by rw [hout], rfl, rfl⟩⟩
    | got r =>
      by_cases hs : r.status = 200
      · obtain ⟨a, ha⟩ : ∃ a, r.accessToken = some a := by
          cases hacc : r.accessToken with
          | none => exact absurd hacc (hresp r rfl hs)
          | some a => exact ⟨a, rfl⟩
        have hrS : MCP.refresh_access_token (.got r) now
            { access := st.access, refresh := some rt,
              file := some { access := st.access, refresh := some rt,
                             createdAt := now, expiresIn := 3600 } } =
            (.ok (some a),
              { access := some a, refresh := some rt,
                file := some { access := some a, refresh := some rt,
                               createdAt := now,
                               expiresIn := pyOrInt r.expiresIn 3600 } }) := by
          simp [MCP.refresh_access_token, htr, hrt, hs, ha, MCP.save_tokens,
            truthyOpt]
        have hout : MCP.set_refresh_token rt (.got r) now st =
            (.success (MCP.preview20 (some a)),
              { access := some a, refresh := some rt,
                file := some { access := some a, refresh := some rt,
                               createdAt := now,
                               expiresIn := pyOrInt r.expiresIn 3600 } }) := by
          simp only [MCP.set_refresh_token]
          rw [hsave2, hrS]
        refine Or.inl ⟨a, MCP.preview20 (some a), by rw [hout], ⟨r, rfl, ha⟩,
          by rw [hout], by rw [hout],
          ⟨{ access := some a, refresh := some rt, createdAt := now,
             expiresIn := pyOrInt r.expiresIn 3600 },
            by rw [hout], rfl, rfl⟩⟩
      · have hrF : MCP.refresh_access_token (.got r) now
            { access := st.access, refresh := some rt,
              file := some { access := st.access, refresh := some rt,
                             createdAt := now, expiresIn := 3600 } } =
            (.err ("Token refresh failed: " ++ r.text),
              { access := st.access, refresh := some rt,
                file := some { access := st.access, refresh := some rt,
                               createdAt := now, expiresIn := 3600 } }) := by
          simp [MCP.refresh_access_token, htr, hs]
        have hout : MCP.set_refresh_token rt (.got r) now st =
            (.failure ("Refresh token saved but failed to generate access token: "
                ++ ("Token refresh failed: " ++ r.text)),
              { access := st.access, refresh := some rt,
                file := some { access := st.access, refresh := some rt,
                               createdAt := now, expiresIn := 3600 } }) := by
          simp only [MCP.set_refresh_token]
          rw [hsave2, hrF]
        refine Or.inr ⟨"Refresh token saved but failed to generate access token: "
            ++ ("Token refresh failed: " ++ r.text),
          by rw [hout], by rw [hout], by rw [hout],
          ⟨{ access := st.access, refresh := some rt, createdAt := now,
             expiresIn := 3600 }, by rw [hout], rfl, rfl⟩⟩

/-- C6 witness: a concrete successful exchange lands in the first outcome
(the disjunction instantiated at an old token, a new refresh token, and a
succeeding endpoint). -/
theorem c6_witness :
    (∃ a s, (MCP.set_refresh_token "NEWRT" (.got authOk) 5
        { access := some "OLD", refresh := some "OLDRT", file := none }).1 =
          .success s ∧
      (∃ r, AuthOutcome.got authOk = .got r ∧ r.accessToken = some a) ∧
      (MCP.set_refresh_token "NEWRT" (.got authOk) 5
        { access := some "OLD", refresh := some "OLDRT", file := none }).2.access
          = some a ∧
      (MCP.set_refresh_token "NEWRT" (.got authOk) 5
        { access := some "OLD", refresh := some "OLDRT", file := none }).2.refresh
          = some "NEWRT" ∧
      (∃ f, (MCP.set_refresh_token "NEWRT" (.got authOk) 5
          { access := some "OLD", refresh := some "OLDRT", file := none }).2.file
            = some f ∧
        f.access = some a ∧ f.refresh = some "NEWRT")) ∨
    (∃ m, (MCP.set_refresh_token "NEWRT" (.got authOk) 5
        { access := some "OLD", refresh := some "OLDRT", file := none }).1 =
          .failure m ∧
      (MCP.set_refresh_token "NEWRT" (.got authOk) 5
        { access := some "OLD", refresh := some "OLDRT", file := none }).2.access
          = some "OLD" ∧
      (MCP.set_refresh_token "NEWRT" (.got authOk) 5
        { access := some "OLD", refresh := some "OLDRT", file := none }).2.refresh
          = some "NEWRT" ∧
      (∃ f, (MCP.set_refresh_token "NEWRT" (.got authOk) 5
          { access := some "OLD", refresh := some "OLDRT", file := none }).2.file
            = some f ∧
        f.access = some "OLD" ∧ f.refresh = some "NEWRT")) :=
  c6_set_refresh_token_two_outcomes
    { access := some "OLD", refresh := some "OLDRT", file := none }
    "NEWRT" (.got authOk) 5
    (fun r hr _ => by cases hr; decide)

/-- C7 counterexample: the claim asks the save/load round trip to preserve
expiry information for every Token Record.  A record with `expires_in = 0`
is saved by `save_tokens` as `expires_in = 3600` (`expires_in or 3600`
treats `0` as absent), so the expiry the consolidated loader computes after
a restart is `issued_at + 3300`, not consistent with the original
`expires_in = 0` (which would give `issued_at - 300`). -/
theorem c7_counterexample :
    (MCP.save_tokens (some "AT") (some "RT") (some 0) 1000
        MCP.emptyState).file =
      some { access := some "AT", refresh := some "RT", createdAt := 1000,
             expiresIn := 3600 } ∧
    Consolidated.loadExpiry
        { access := some "AT", refresh := some "RT", createdAt := 1000,
          expiresIn := 3600 } ≠ 1000 + 0 - 300 := by
  exact ⟨by decide, by decide⟩

/-- C7 amended: for every Token Record whose tokens are non-empty strings
and whose `expires_in` is non-zero, `save_tokens` followed by a fresh-state
`load_tokens` (process restart) reproduces the same access and refresh
token, and the expiry computed from the stored file equals
`issued_at + expires_in - 300`, consistent with the original `expires_in`
and the recorded `created_at`; `expires_in = 0` is saved as 3600 instead
(see the counterexample). -/
theorem c7_amended_roundtrip
    (env : MCP.Env) (st : MCP.MCPState) (a r : String) (e now : Int)
    (ha : a ≠ "") (hr : r ≠ "") (he : e ≠ 0) :
    ∃ f, (MCP.save_tokens (some a) (some r) (some e) now st).file = some f ∧
      f.access = some a ∧ f.refresh = some r ∧ f.createdAt = now ∧
      f.expiresIn = e ∧
      (MCP.load_tokens env
        { access := none, refresh := none, file := some f }).2.access = some a ∧
      (MCP.load_tokens env
        { access := none, refresh := none, file := some f }).2.refresh = some r ∧
      Consolidated.loadExpiry f = now + e - 300 := by
  refine ⟨{ access := some a, refresh := some r, createdAt := now,
            expiresIn := e }, ?_, rfl, rfl, rfl, rfl, rfl, rfl, rfl⟩
  simp [MCP.save_tokens, truthyOpt, ha, hr, pyOrInt, he]

/-- C7 amended witness: a concrete record round-trips with a consistent
expiry. -/
theorem c7_amended_witness :
    ∃ f, (MCP.save_tokens (some "AT") (some "RT") (some 3600) 1000
        MCP.emptyState).file = some f ∧
      f.access = some "AT" ∧ f.refresh = some "RT" ∧ f.createdAt = 1000 ∧
      f.expiresIn = 3600 ∧
      (MCP.load_tokens MCP.noEnv
        { access := none, refresh := none, file := some f }).2.access =
          some "AT" ∧
      (MCP.load_tokens MCP.noEnv
        { access := none, refresh := none, file := some f }).2.refresh =
          some "RT" ∧
      Consolidated.loadExpiry f = 1000 + 3600 - 300 :=
  c7_amended_roundtrip MCP.noEnv MCP.emptyState "AT" "RT" 3600 1000
    (by decide) (by decide) (by decide)

/-- C9 counterexample: the claim says a failed half-open trial re-opens the
circuit.  After five failures the circuit is open; once the 60-second
recovery timeout has elapsed the wrapper zeroes the failure count and
closes the circuit before the trial, so when the trial call fails the
count is only 1 and the circuit stays closed — it does not re-open. -/
theorem c9_counterexample :
    CB.fail5 = { failures := 5, lastFailure := some 4, openFlag := true } ∧
    CB.cbCall 5 60 70 false CB.fail5 =
      (.raisedFuncError,
        { failures := 1, lastFailure := some 70, openFlag := false }) := by
  exact ⟨by decide, by decide⟩

/-- C9 amended: once the circuit is open and the recovery timeout has
elapsed, the next call is allowed through (never failed fast) with the
circuit closed and the failure count zeroed; a successful trial leaves the
count at zero, while a failed trial records a single failure with a fresh
`last_failure` stamp and leaves the circuit closed (for any threshold of
at least 2) — it re-opens only after the threshold is reached again. -/
theorem c9_amended_half_open
    (threshold : Nat) (timeout now last : Int) (succ : Bool)
    (st : CB.CBState) (hopen : st.openFlag = true)
    (hlast : st.lastFailure = some last)
    (helapsed : timeout ≤ CB.elapsedSeconds now last) (hthr : 2 ≤ threshold) :
    (CB.cbCall threshold timeout now succ st).1 ≠ CB.CBOutcome.circuitOpen ∧
    (succ = true → CB.cbCall threshold timeout now succ st =
      (.ok, { st with openFlag := false, failures := 0 })) ∧
    (succ = false → CB.cbCall threshold timeout now succ st =
      (.raisedFuncError,
        { failures := 1, lastFailure := some now, openFlag := false })) := by
  have hnot : ¬ CB.elapsedSeconds now last < timeout := by omega
  have hone : ¬ (1 ≥ threshold) := by omega
  simp only [CB.cbCall, hopen, hlast, if_true, if_neg hnot]
  cases succ with
  | true => simp
  | false => simp [if_neg hone]

/-- C9 amended witness: the open circuit from five failures, 66 seconds
later, lets a failing trial through and stays closed with one recorded
failure. -/
theorem c9_amended_witness :
    (CB.cbCall 5 60 70 false
        { failures := 5, lastFailure := some 4, openFlag := true }).1 ≠
      CB.CBOutcome.circuitOpen ∧
    (false = true → CB.cbCall 5 60 70 false
        { failures := 5, lastFailure := some 4, openFlag := true } =
      (.ok, { failures := 0, lastFailure := some 4, openFlag := false })) ∧
    (false = false → CB.cbCall 5 60 70 false
        { failures := 5, lastFailure := some 4, openFlag := true } =
      (.raisedFuncError,
        { failures := 1, lastFailure := some 70, openFlag := false })) :=
  c9_amended_half_open 5 60 70 4 false
    { failures := 5, lastFailure := some 4, openFlag := true }
    rfl rfl (by decide) (by decide)

/-- C10 witness: 101 records are rejected with no request issued; 100
records cause a request to be issued. -/
theorem c10_witness :
    MCP.bulk_create_records MCP.noEnv .netError .netError .netError 0
        okResp okResp (List.replicate 101 "r") MCP.emptyState =
        (.err "Maximum 100 records allowed per bulk operation" none, [],
          MCP.emptyState) ∧
      (MCP.bulk_create_records MCP.noEnv .netError .netError .netError 0
        okResp okResp (List.replicate 100 "r") MCP.emptyState).2.1 ≠ [] :=
  ⟨(c10_bulk_limit MCP.noEnv .netError .netError .netError 0 okResp okResp
      (List.replicate 101 "r") MCP.emptyState).1 (by simp),
   (c10_bulk_limit MCP.noEnv .netError .netError .netError 0 okResp okResp
      (List.replicate 100 "r") MCP.emptyState).2 (by simp)⟩
